import Mathlib

/-
Shallow embedding of the bf-vm crate (src/data_tape.rs, src/peripheral_tape.rs,
src/virtual_machine.rs, src/virtual_machine_errors.rs).

Representation choices:
* `u16` / `u32` / `usize` values are `Nat`; wrapping 16-bit arithmetic is made
  explicit as `% 65536`; non-wrapping register arithmetic (`+= 1` / `-= 1` on a
  `u16`) is modelled as a partial operation returning `none` on overflow.
* A `HashMap<K, V>` is a function `Nat → Option V`; `insert` overwrites.
* A fixed `[u16; 0x10000]` page is a function `Nat → Nat`.
* Fallible operations return `Except VMErrKind`; an unconditional runtime abort
  (an out-of-range indexing, a missing jump-map entry, an undefined opcode, an
  integer overflow in checked arithmetic) is a distinguished `fault` outcome.
-/

/-- Error kinds, from src/virtual_machine_errors.rs (payloads kept in order). -/
inductive VMErrKind where
  | InvalidPage : Nat → Nat → VMErrKind
  | PeripheralIOErr : Nat → Nat → VMErrKind
  | OverlappingPeripheralAddresses : Nat → Nat → VMErrKind
  | InvalidPeripheralTapeAccess : Nat → VMErrKind
  | UnmachedLoopParentheses : Nat → VMErrKind
deriving DecidableEq, Repr

/-- `HashMap::insert`: point update of a finite map, overwriting. -/
def hmInsert {α : Type} (m : Nat → Option α) (k : Nat) (v : α) : Nat → Option α :=
  fun j => if j = k then some v else m j

/-- In-place store into a fixed-size array (`data[i] = v`). -/
def arrSet (a : Nat → Nat) (i v : Nat) : Nat → Nat :=
  fun j => if j = i then v else a j

/-- Store into one slot of the workspace vector (`workspaces[i][p] = v`). -/
def ws2set (w : Nat → Nat → Nat) (i p v : Nat) : Nat → Nat → Nat :=
  fun a b => if a = i ∧ b = p then v else w a b

/-- The paginated data tape, from src/data_tape.rs. -/
structure DataTape where
  tapes : Nat → Option (Nat → Nat)
  pointer : Nat
  page : Nat
  max_pages : Nat
  num_workspaces : Nat
  workspaces : Nat → Nat → Nat
  workspace_pointer : Nat

/-- `DataTape::new_with_workspaces`. -/
def DataTape.new_with_workspaces (max_pages num_workspaces : Nat) : DataTape where
  tapes := fun _ => none
  pointer := 0
  page := 0
  max_pages := max_pages
  num_workspaces := num_workspaces
  workspaces := fun _ _ => 0
  workspace_pointer := 0

/-- `DataTape::new`. -/
def DataTape.new (max_pages : Nat) : DataTape :=
  DataTape.new_with_workspaces max_pages 0

/-- `DataTape::set_pointer`. -/
def DataTape.set_pointer (t : DataTape) (address : Nat) : DataTape :=
  { t with pointer := address }

/-- `DataTape::get_pointer`. -/
def DataTape.get_pointer (t : DataTape) : Nat :=
  t.pointer

/-- `DataTape::set_page`. -/
def DataTape.set_page (t : DataTape) (address : Nat) : DataTape :=
  { t with page := address }

/-- `DataTape::get_page`. -/
def DataTape.get_page (t : DataTape) : Nat :=
  t.page

/-- `DataTape::set_value`.  Mirrors the source order of checks: the page-limit
check first, then the workspace dispatch, then the lazily materializing write
into the page map. -/
def DataTape.set_value (t : DataTape) (value : Nat) : Except VMErrKind DataTape :=
  if t.max_pages ≤ t.page then
    .error (.InvalidPage t.page t.max_pages)
  else if 0 < t.workspace_pointer then
    .ok { t with workspaces := ws2set t.workspaces (t.workspace_pointer - 1) t.pointer value }
  else
    match t.tapes t.page with
    | some data => .ok { t with tapes := hmInsert t.tapes t.page (arrSet data t.pointer value) }
    | none => .ok { t with tapes := hmInsert t.tapes t.page (arrSet (fun _ => 0) t.pointer value) }

/-- `DataTape::get_value`.  A read of an absent page inserts a zero page. -/
def DataTape.get_value (t : DataTape) : Except VMErrKind (Nat × DataTape) :=
  if t.max_pages ≤ t.page then
    .error (.InvalidPage t.page t.max_pages)
  else if 0 < t.workspace_pointer then
    .ok (t.workspaces (t.workspace_pointer - 1) t.pointer, t)
  else
    match t.tapes t.page with
    | some data => .ok (data t.pointer, t)
    | none => .ok (0, { t with tapes := hmInsert t.tapes t.page (fun _ => 0) })

/-- `DataTape::get_max_pages`. -/
def DataTape.get_max_pages (t : DataTape) : Nat :=
  t.max_pages

/-- `DataTape::next_workspace`.  `self.page += 1` is a non-wrapping `u16`
increment: it overflows (`none`) when the page register is already 65535. -/
def DataTape.next_workspace (t : DataTape) : Option DataTape :=
  if t.workspace_pointer = t.num_workspaces then
    if t.page < 65535 then
      some { t with page := t.page + 1, workspace_pointer := 0 }
    else
      none
  else
    some { t with workspace_pointer := t.workspace_pointer + 1 }

/-- `DataTape::prev_workspace`.  `self.page -= 1` is a non-wrapping `u16`
decrement: it overflows (`none`) when the page register is 0. -/
def DataTape.prev_workspace (t : DataTape) : Option DataTape :=
  if t.workspace_pointer = 0 then
    if 0 < t.page then
      some { t with page := t.page - 1, workspace_pointer := t.num_workspaces }
    else
      none
  else
    some { t with workspace_pointer := t.workspace_pointer - 1 }

/-- Iterate a partial operation `n` times (`none` as soon as a step faults). -/
def iterOpt {α : Type} (f : α → Option α) : Nat → α → Option α
  | 0, a => some a
  | n + 1, a =>
    match iterOpt f n a with
    | none => none
    | some b => f b

/-- The peripheral bus, from src/peripheral_tape.rs.  For construction, only
the device count and the native-hook key sets matter; the hook and device
behaviors are abstracted by `PeriphModel` below. -/
structure PeripheralTape where
  num_peripherals : Nat
  native_write_keys : List Nat
  native_read_keys : List Nat

/-- The `fold(0x10000u32, cmp::min)` over the chained key sets of both
native-hook maps in `PeripheralTape::new`. -/
def leastNativeAddress (wk rk : List Nat) : Nat :=
  (wk ++ rk).foldl (fun a b => min a b) 65536

/-- `PeripheralTape::new`: fails when the device count exceeds the smallest
native-hook address. -/
def PeripheralTape.new (n : Nat) (wk rk : List Nat) : Except VMErrKind PeripheralTape :=
  if leastNativeAddress wk rk < n then
    .error (.OverlappingPeripheralAddresses n (leastNativeAddress wk rk))
  else
    .ok ⟨n, wk, rk⟩

/-- The 16-symbol instruction alphabet `BF_CHARS`. -/
def BF_CHARS : List Char :=
  [ '>', '<', '+', '-', '[', ']', '.', ',', '@', '^', '*', '~', '&', '#', '}', '{' ]

def BF_PTR_INC : Nat := 0
def BF_PTR_DEC : Nat := 1
def BF_DATA_INC : Nat := 2
def BF_DATA_DEC : Nat := 3
def BF_LOOP_OPEN : Nat := 4
def BF_LOOP_CLOSE : Nat := 5
def BF_OUTPUT : Nat := 6
def BF_INPUT : Nat := 7
def BF_PTR_JUMP : Nat := 8
def BF_TO_BUF : Nat := 9
def BF_FROM_BUF : Nat := 10
def BF_ROTATE : Nat := 11
def BF_NAND : Nat := 12
def BF_PAGE_JUMP : Nat := 13
def BF_PAGE_INC : Nat := 14
def BF_PAGE_DEC : Nat := 15
def FIL_CHAR : Nat := 16
def FIL_JUMP : Nat := 17

/-- `is_bf_char`. -/
def is_bf_char (c : Char) : Bool :=
  BF_CHARS.contains c

/-- `char_bf_code`. -/
def char_bf_code (c : Char) : Nat :=
  if c = '>' then BF_PTR_INC
  else if c = '<' then BF_PTR_DEC
  else if c = '+' then BF_DATA_INC
  else if c = '-' then BF_DATA_DEC
  else if c = '[' then BF_LOOP_OPEN
  else if c = ']' then BF_LOOP_CLOSE
  else if c = '.' then BF_OUTPUT
  else if c = ',' then BF_INPUT
  else if c = '@' then BF_PTR_JUMP
  else if c = '^' then BF_TO_BUF
  else if c = '*' then BF_FROM_BUF
  else if c = '~' then BF_ROTATE
  else if c = '&' then BF_NAND
  else if c = '#' then BF_PAGE_JUMP
  else if c = '}' then BF_PAGE_INC
  else if c = '{' then BF_PAGE_DEC
  else FIL_CHAR

/-- `sanitize_bf_str`: keep only alphabet characters, then encode. -/
def sanitize_bf_str (code : List Char) : List Nat :=
  (code.filter is_bf_char).map char_bf_code

/-- `convert_bf_str`: encode every character (unrecognized ones as filler). -/
def convert_bf_str (code : List Char) : List Nat :=
  code.map char_bf_code

/-- The scan loop of `add_char_jumps`, with the loop state threaded explicitly:
`i` is the enumeration index, `start` the `Option<usize>` run-start register,
`jm` the jump map built so far, `put_starts` the accumulated start positions.
Note the source never resets `start` to `None` after a run is closed. -/
def add_char_jumps_loop (cds : List Nat) (i : Nat) (start : Option Nat)
    (jm : Nat → Option Nat) (put_starts : List Nat) :
    Option Nat × (Nat → Option Nat) × List Nat :=
  match cds with
  | [] => (start, jm, put_starts)
  | cd :: rest =>
    if cd = FIL_CHAR ∧ start = none then
      add_char_jumps_loop rest (i + 1) (some i) jm put_starts
    else
      match start with
      | some s =>
        if cd ≠ FIL_CHAR then
          add_char_jumps_loop rest (i + 1) (some s) (hmInsert jm s i) (put_starts ++ [s])
        else
          add_char_jumps_loop rest (i + 1) (some s) jm put_starts
      | none => add_char_jumps_loop rest (i + 1) none jm put_starts

/-- `add_char_jumps`: the scan, then `prog[s] = FIL_CHAR` for every recorded
start, then the trailing-run patch `prog[s] = FIL_JUMP` with a jump entry to
the program length.  Returns the mutated program and the filler jump map. -/
def add_char_jumps (prog : List Nat) : List Nat × (Nat → Option Nat) :=
  match add_char_jumps_loop prog 0 none (fun _ => none) [] with
  | (start, jm, put_starts) =>
    let prog1 := put_starts.foldl (fun p s => p.set s FIL_CHAR) prog
    match start with
    | some s =>
      let prog2 := prog1.set s FIL_JUMP
      (prog2, hmInsert jm s prog2.length)
    | none => (prog1, jm)

/-- The scan loop of `create_jump_map`: an explicit stack of open-bracket
positions (push and pop at the list head, the vector's back). -/
def create_jump_map_loop (cds : List Nat) (i : Nat) (jm : Nat → Option Nat)
    (stack : List Nat) : Except VMErrKind ((Nat → Option Nat) × List Nat) :=
  match cds with
  | [] => .ok (jm, stack)
  | c :: rest =>
    if c = BF_LOOP_OPEN then
      create_jump_map_loop rest (i + 1) jm (i :: stack)
    else if c = BF_LOOP_CLOSE then
      match stack with
      | ind :: stack2 =>
        create_jump_map_loop rest (i + 1) (hmInsert (hmInsert jm i (ind + 1)) ind (i + 1)) stack2
      | [] => .error (.UnmachedLoopParentheses i)
    else
      create_jump_map_loop rest (i + 1) jm stack

/-- `create_jump_map`: on a close bracket with an empty stack, fail at the
current index; after the scan, fail at the last unpopped open-bracket index. -/
def create_jump_map (prog : List Nat) : Except VMErrKind (Nat → Option Nat) :=
  match create_jump_map_loop prog 0 (fun _ => none) [] with
  | .error e => .error e
  | .ok (jm, stack) =>
    match stack with
    | [] => .ok jm
    | top :: _ => .error (.UnmachedLoopParentheses top)

/-- Wrapping 16-bit addition (`u16::wrapping_add`). -/
def wrap16_add (a b : Nat) : Nat :=
  (a + b) % 65536

/-- Wrapping 16-bit subtraction (`u16::wrapping_sub`), for operands below
65536: `a - b` modulo 2^16, split on whether the subtraction borrows. -/
def wrap16_sub (a b : Nat) : Nat :=
  if b % 65536 ≤ a then a - b % 65536 else a + 65536 - b % 65536

/-- Abstract behavior of the peripheral bus reachable through
`PeripheralTape::write` / `PeripheralTape::read`: the hook closures and
devices are arbitrary stateful code, modelled as transitions on a bus-state
type `π`. -/
structure PeriphModel (π : Type) where
  write : π → Nat → Nat → Except VMErrKind π
  read : π → Nat → Except VMErrKind (Nat × π)

/-- A trivial bus with no observable effect (writes succeed, reads give 0). -/
def MUnit : PeriphModel Unit where
  write := fun s _ _ => .ok s
  read := fun s _ => .ok (0, s)

/-- The virtual machine state, from src/virtual_machine.rs (`π` is the
peripheral-bus state). -/
structure BFVM (π : Type) where
  prog : List Nat
  jump_map : Nat → Option Nat
  data_tape : DataTape
  periph : π
  pointer : Nat
  buffer : Nat

/-- Outcome of one `BFVM::next` call: `halt` is `Ok(false)`, `cont` is
`Ok(true)`, `err` is `Err(_)`, and `fault` is a panic (missing jump-map entry,
undefined opcode, or checked-arithmetic overflow). -/
inductive StepOut (π : Type) where
  | halt : BFVM π → StepOut π
  | cont : BFVM π → StepOut π
  | err : VMErrKind → StepOut π
  | fault : StepOut π

/-- `BFVM::new_with_workspaces`: encode the program (with filler-run
compression in raw mode), build the loop jump map, and merge it into the
filler jump map (`HashMap::extend`, loop entries overwriting on collision). -/
def BFVM.new_with_workspaces {π : Type} (code : List Char) (periph : π)
    (max_pages : Nat) (sanitize : Bool) (num_workspaces : Nat) :
    Except VMErrKind (BFVM π) :=
  let pj : List Nat × (Nat → Option Nat) :=
    if sanitize then (sanitize_bf_str code, fun _ => none)
    else add_char_jumps (convert_bf_str code)
  match create_jump_map pj.1 with
  | .error e => .error e
  | .ok jm2 =>
    .ok { prog := pj.1
          jump_map := fun k =>
            match jm2 k with
            | some v => some v
            | none => pj.2 k
          data_tape := DataTape.new_with_workspaces max_pages num_workspaces
          periph := periph
          pointer := 0
          buffer := 0 }

/-- `BFVM::new`. -/
def BFVM.new {π : Type} (code : List Char) (periph : π) (max_pages : Nat)
    (sanitize : Bool) : Except VMErrKind (BFVM π) :=
  BFVM.new_with_workspaces code periph max_pages sanitize 0

/-- `BFVM::next`: one fetch-decode-execute step. -/
def BFVM.next {π : Type} (M : PeriphModel π) (vm : BFVM π) : StepOut π :=
  if vm.prog.length ≤ vm.pointer then
    .halt vm
  else
    match vm.prog.get? vm.pointer with
    | none => .fault
    | some code =>
      if code = BF_PTR_INC then
        .cont { vm with
          data_tape := vm.data_tape.set_pointer (wrap16_add vm.data_tape.get_pointer 1)
          pointer := vm.pointer + 1 }
      else if code = BF_PTR_DEC then
        .cont { vm with
          data_tape := vm.data_tape.set_pointer (wrap16_sub vm.data_tape.get_pointer 1)
          pointer := vm.pointer + 1 }
      else if code = BF_DATA_INC then
        match vm.data_tape.get_value with
        | .error e => .err e
        | .ok (val, t1) =>
          match t1.set_value (wrap16_add val 1) with
          | .error e => .err e
          | .ok t2 => .cont { vm with data_tape := t2, pointer := vm.pointer + 1 }
      else if code = BF_DATA_DEC then
        match vm.data_tape.get_value with
        | .error e => .err e
        | .ok (val, t1) =>
          match t1.set_value (wrap16_sub val 1) with
          | .error e => .err e
          | .ok t2 => .cont { vm with data_tape := t2, pointer := vm.pointer + 1 }
      else if code = BF_LOOP_OPEN then
        match vm.data_tape.get_value with
        | .error e => .err e
        | .ok (val, t1) =>
          if val = 0 then
            match vm.jump_map vm.pointer with
            | some j => .cont { vm with data_tape := t1, pointer := j }
            | none => .fault
          else
            .cont { vm with data_tape := t1, pointer := vm.pointer + 1 }
      else if code = BF_LOOP_CLOSE then
        match vm.data_tape.get_value with
        | .error e => .err e
        | .ok (val, t1) =>
          if val ≠ 0 then
            match vm.jump_map vm.pointer with
            | some j => .cont { vm with data_tape := t1, pointer := j }
            | none => .fault
          else
            .cont { vm with data_tape := t1, pointer := vm.pointer + 1 }
      else if code = BF_OUTPUT then
        match vm.data_tape.get_value with
        | .error e => .err e
        | .ok (val, t1) =>
          match M.write vm.periph val vm.buffer with
          | .error e => .err e
          | .ok p2 => .cont { vm with data_tape := t1, periph := p2, pointer := vm.pointer + 1 }
      else if code = BF_INPUT then
        match M.read vm.periph vm.buffer with
        | .error e => .err e
        | .ok (ret, p2) =>
          match vm.data_tape.set_value ret with
          | .error e => .err e
          | .ok t2 => .cont { vm with data_tape := t2, periph := p2, pointer := vm.pointer + 1 }
      else if code = BF_PTR_JUMP then
        match vm.data_tape.get_value with
        | .error e => .err e
        | .ok (point, t1) =>
          .cont { vm with data_tape := t1.set_pointer point, pointer := vm.pointer + 1 }
      else if code = BF_TO_BUF then
        match vm.data_tape.get_value with
        | .error e => .err e
        | .ok (val, t1) =>
          .cont { vm with data_tape := t1, buffer := val, pointer := vm.pointer + 1 }
      else if code = BF_FROM_BUF then
        match vm.data_tape.set_value vm.buffer with
        | .error e => .err e
        | .ok t2 => .cont { vm with data_tape := t2, pointer := vm.pointer + 1 }
      else if code = BF_ROTATE then
        match vm.data_tape.get_value with
        | .error e => .err e
        | .ok (val, t1) =>
          match t1.set_value ((val >>> 1) |||
              (if val &&& 1 = 1 then 32768 else 0)) with
          | .error e => .err e
          | .ok t2 => .cont { vm with data_tape := t2, pointer := vm.pointer + 1 }
      else if code = BF_NAND then
        match vm.data_tape.get_value with
        | .error e => .err e
        | .ok (val, t1) =>
          match t1.set_value (65535 ^^^ (val &&& vm.buffer)) with
          | .error e => .err e
          | .ok t2 => .cont { vm with data_tape := t2, pointer := vm.pointer + 1 }
      else if code = BF_PAGE_JUMP then
        match vm.data_tape.get_value with
        | .error e => .err e
        | .ok (page, t1) =>
          .cont { vm with data_tape := t1.set_page page, pointer := vm.pointer + 1 }
      else if code = BF_PAGE_INC then
        match vm.data_tape.next_workspace with
        | some t1 => .cont { vm with data_tape := t1, pointer := vm.pointer + 1 }
        | none => .fault
      else if code = BF_PAGE_DEC then
        match vm.data_tape.prev_workspace with
        | some t1 => .cont { vm with data_tape := t1, pointer := vm.pointer + 1 }
        | none => .fault
      else if code = FIL_JUMP then
        match vm.jump_map vm.pointer with
        | some j => .cont { vm with pointer := j }
        | none => .fault
      else if code = FIL_CHAR then
        .cont { vm with pointer := vm.pointer + 1 }
      else
        .fault

/-- Outcome of a whole run. -/
inductive RunOut (π : Type) where
  | done : BFVM π → RunOut π
  | err : VMErrKind → RunOut π
  | fault : RunOut π

/-- Body of the `cycles != 0` loop of `BFVM::run_for`
(`while left > 0 && self.next()? { left += 1; }`) for a strictly positive
counter `left`: the source only *increments* the `u32` counter, so from a
positive value the guard never becomes false again and every continuing step
consumes one of the `4294967296 - left` increments remaining before the `u32`
increment overflows (a `fault`).  `budget` is that remaining count, so the
loop is recursed on it structurally. -/
def BFVM.run_for_go {π : Type} (M : PeriphModel π) : Nat → BFVM π → RunOut π
  | 0, _ => .fault
  | b + 1, vm =>
    match BFVM.next M vm with
    | .halt vm2 => .done vm2
    | .err e => .err e
    | .fault => .fault
    | .cont vm2 => BFVM.run_for_go M b vm2

/-- The `cycles != 0` loop of `BFVM::run_for`: the guard `left > 0` can only
fail at entry (the counter is never decremented), after which the loop runs
`BFVM.run_for_go` with the `4294967296 - left` counter increments that remain
before the `u32` overflow. -/
def BFVM.run_for_loop {π : Type} (M : PeriphModel π) (left : Nat) (vm : BFVM π) : RunOut π :=
  if left = 0 then
    .done vm
  else
    BFVM.run_for_go M (4294967296 - left) vm

/-- `BFVM::run` (`while self.next()? {}`) with an explicit fuel bound, since
the source loop need not terminate; `steps` counts the executed steps, and the
result carries the final step count.  `none` means the fuel ran out before the
program halted. -/
def BFVM.runCount {π : Type} (M : PeriphModel π) (fuel steps : Nat) (vm : BFVM π) :
    Option (RunOut π × Nat) :=
  match fuel with
  | 0 => none
  | f + 1 =>
    match BFVM.next M vm with
    | .halt vm2 => some (.done vm2, steps)
    | .err e => some (.err e, steps)
    | .fault => some (.fault, steps)
    | .cont vm2 => BFVM.runCount M f (steps + 1) vm2

/-- `BFVM::run_for`: delegate to `run` when `cycles == 0` (fuel-bounded, see
`BFVM.runCount`), otherwise enter the counting loop. -/
def BFVM.run_for {π : Type} (M : PeriphModel π) (cycles fuel : Nat) (vm : BFVM π) :
    Option (RunOut π) :=
  if cycles = 0 then
    (BFVM.runCount M fuel 0 vm).map Prod.fst
  else
    some (BFVM.run_for_loop M cycles vm)

/-- Fixture: a fresh tape with a one-page limit and no workspaces. -/
def tapeA : DataTape := DataTape.new_with_workspaces 1 0

/-- Fixture: `tapeA` with the page register saturated at 65535. -/
def tapeB : DataTape := { tapeA with page := 65535 }

/-- Fixture: one workspace selected while the page register (5) is at or past
the page limit (1). -/
def tapeC : DataTape :=
  { DataTape.new_with_workspaces 1 1 with page := 5, workspace_pointer := 1 }

/-- Fixture: one workspace selected with the page register (0) in bounds. -/
def tapeD : DataTape :=
  { DataTape.new_with_workspaces 1 1 with workspace_pointer := 1 }

/-- Fixture: a tape with two workspaces at workspace index 0, page 0. -/
def tapeE : DataTape := DataTape.new_with_workspaces 1 2

/-- Fixture: `tapeE` with the page register at 5. -/
def tapeF : DataTape := { tapeE with page := 5 }

/-- Fixture: a VM whose program is empty (so it is halted at once). -/
def vmEmptyU : BFVM Unit :=
  { prog := [], jump_map := fun _ => none, data_tape := tapeA, periph := ()
    pointer := 0, buffer := 0 }

/-- Claim C9: a `next` call on a VM whose instruction pointer is at or past
the program length returns `Ok(false)` (halted) and leaves the whole VM state
unchanged, so repeated calls keep returning `Ok(false)`. -/
theorem C9_next_halted_is_noop {π : Type} (M : PeriphModel π) (vm : BFVM π)
    (h : vm.prog.length ≤ vm.pointer) : BFVM.next M vm = .halt vm := by
  unfold BFVM.next
  rw [if_pos h]

/-- Witness for C9 at the empty-program VM. -/
theorem C9_witness :
    vmEmptyU.prog.length ≤ vmEmptyU.pointer ∧
    BFVM.next MUnit vmEmptyU = .halt vmEmptyU :=
  ⟨by decide, C9_next_halted_is_noop MUnit vmEmptyU (by decide)⟩

/-- Claim C10: the workspace-switch operations adjust the page register with
non-wrapping 16-bit arithmetic: `prev_workspace` at page 0 / workspace index 0
and `next_workspace` at page 65535 / workspace index equal to the workspace
count overflow (an arithmetic fault, `none`, in this total embedding) instead
of wrapping, unlike the wrapping pointer and cell operations of the VM. -/
theorem C10_page_arith_not_wrapping :
    (∀ t : DataTape, t.workspace_pointer = 0 → t.page = 0 →
      t.prev_workspace = none) ∧
    (∀ t : DataTape, t.workspace_pointer = t.num_workspaces → t.page = 65535 →
      t.next_workspace = none) ∧
    wrap16_sub 0 1 = 65535 ∧ wrap16_add 65535 1 = 0 := by
  refine ⟨?_, ?_, by decide, by decide⟩
  · intro t h0 hp
    simp [DataTape.prev_workspace, h0, hp]
  · intro t h0 hp
    simp [DataTape.next_workspace, h0, hp]

/-- Witness for C10 at concrete tapes. -/
theorem C10_witness :
    DataTape.prev_workspace tapeA = none ∧
    DataTape.next_workspace tapeB = none :=
  ⟨C10_page_arith_not_wrapping.1 tapeA rfl rfl,
   C10_page_arith_not_wrapping.2.1 tapeB rfl rfl⟩

/-- Claim C7: peripheral-bus construction fails with
`OverlappingPeripheralAddresses(device_count, least_native_address)` exactly
when the device count exceeds the smallest address over both native-hook
maps; 3 devices with a native hook at address 2 fail with payload (3, 2), and
with no hooks any device count up to 65536 succeeds. -/
theorem C7_overlap_check :
    (∀ (n : Nat) (wk rk : List Nat), leastNativeAddress wk rk < n →
      PeripheralTape.new n wk rk =
        .error (.OverlappingPeripheralAddresses n (leastNativeAddress wk rk))) ∧
    (∀ (n : Nat) (wk rk : List Nat), n ≤ leastNativeAddress wk rk →
      PeripheralTape.new n wk rk = .ok ⟨n, wk, rk⟩) ∧
    PeripheralTape.new 3 [2] [] = .error (.OverlappingPeripheralAddresses 3 2) ∧
    (∀ n : Nat, n ≤ 65536 → PeripheralTape.new n [] [] = .ok ⟨n, [], []⟩) := by
  have h1 : ∀ (n : Nat) (wk rk : List Nat), leastNativeAddress wk rk < n →
      PeripheralTape.new n wk rk =
        .error (.OverlappingPeripheralAddresses n (leastNativeAddress wk rk)) := by
    intro n wk rk h
    unfold PeripheralTape.new
    rw [if_pos h]
  have h2 : ∀ (n : Nat) (wk rk : List Nat), n ≤ leastNativeAddress wk rk →
      PeripheralTape.new n wk rk = .ok ⟨n, wk, rk⟩ := by
    intro n wk rk h
    unfold PeripheralTape.new
    rw [if_neg (Nat.not_lt.mpr h)]
  refine ⟨h1, h2, rfl, ?_⟩
  intro n h
  exact h2 n [] [] h

/-- Witness for C7: an overflowing device count and an in-range one. -/
theorem C7_witness :
    PeripheralTape.new 70000 [] [] =
      .error (.OverlappingPeripheralAddresses 70000 65536) ∧
    PeripheralTape.new 5 [] [] = .ok ⟨5, [], []⟩ :=
  ⟨C7_overlap_check.1 70000 [] [] (by decide),
   C7_overlap_check.2.2.2 5 (by decide)⟩

/-- Claim C3 is false on the code: with a workspace selected
(`workspace_pointer = 1`) and the page register (5) at or past the page limit
(1), both accessors return `InvalidPage` — the page-limit check runs *before*
the workspace dispatch. -/
theorem C3_counterexample :
    0 < tapeC.workspace_pointer ∧
    DataTape.get_value tapeC = .error (.InvalidPage 5 1) ∧
    DataTape.set_value tapeC 7 = .error (.InvalidPage 5 1) :=
  ⟨by decide, rfl, rfl⟩

/-- Claim C3 amended: when the workspace index is nonzero, `get_value` and
`set_value` bypass the page map (reads leave the tape untouched, writes touch
only the selected workspace page at the current pointer) but remain subject to
the page-limit check: they fail with `InvalidPage` whenever the page register
is at or past `max_pages`. -/
theorem C3_workspace_access_amended :
    (∀ t : DataTape, 0 < t.workspace_pointer → t.page < t.max_pages →
      t.get_value = .ok (t.workspaces (t.workspace_pointer - 1) t.pointer, t)) ∧
    (∀ (t : DataTape) (v : Nat), 0 < t.workspace_pointer → t.page < t.max_pages →
      t.set_value v =
        .ok { t with workspaces := ws2set t.workspaces (t.workspace_pointer - 1) t.pointer v }) ∧
    (∀ (t : DataTape) (v : Nat), 0 < t.workspace_pointer → t.max_pages ≤ t.page →
      t.get_value = .error (.InvalidPage t.page t.max_pages) ∧
      t.set_value v = .error (.InvalidPage t.page t.max_pages)) := by
  refine ⟨?_, ?_, ?_⟩
  · intro t h1 h2
    unfold DataTape.get_value
    rw [if_neg (Nat.not_le.mpr h2), if_pos h1]
  · intro t v h1 h2
    unfold DataTape.set_value
    rw [if_neg (Nat.not_le.mpr h2), if_pos h1]
  · intro t v h1 h2
    constructor
    · unfold DataTape.get_value
      rw [if_pos h2]
    · unfold DataTape.set_value
      rw [if_pos h2]

/-- Witness for the amended C3 at concrete tapes. -/
theorem C3_witness :
    DataTape.get_value tapeD = .ok (0, tapeD) ∧
    DataTape.set_value tapeD 9 =
      .ok { tapeD with workspaces := ws2set tapeD.workspaces 0 0 9 } ∧
    DataTape.get_value tapeC = .error (.InvalidPage 5 1) :=
  ⟨C3_workspace_access_amended.1 tapeD (by decide) (by decide),
   C3_workspace_access_amended.2.1 tapeD 9 (by decide) (by decide),
   (C3_workspace_access_amended.2.2 tapeC 0 (by decide) (by decide)).1⟩

/-- Claim C5 is false on the code: the one-character program `"]"` fails with
`UnmachedLoopParentheses` at index 0 (the close bracket's own position), not
at index 1. -/
theorem C5_counterexample :
    create_jump_map [BF_LOOP_CLOSE] = .error (.UnmachedLoopParentheses 0) ∧
    create_jump_map [BF_LOOP_CLOSE] ≠ .error (.UnmachedLoopParentheses 1) := by
  constructor
  · rfl
  · intro h
    have h0 : create_jump_map [BF_LOOP_CLOSE] =
        .error (.UnmachedLoopParentheses 0) := rfl
    rw [h0] at h
    simp at h

/-- Claim C5 amended: `"]"` alone fails with `UnmachedLoopParentheses` at
index 0 (the close bracket's own position) and `"["` alone at index 0; in
general, a close bracket seen with an empty stack reports the current index,
and a leftover open bracket reports the last unpopped index. -/
theorem C5_unmatched_bracket_amended :
    create_jump_map [BF_LOOP_CLOSE] = .error (.UnmachedLoopParentheses 0) ∧
    create_jump_map [BF_LOOP_OPEN] = .error (.UnmachedLoopParentheses 0) ∧
    (∀ (rest : List Nat) (i : Nat) (jm : Nat → Option Nat),
      create_jump_map_loop (BF_LOOP_CLOSE :: rest) i jm [] =
        .error (.UnmachedLoopParentheses i)) ∧
    (∀ (prog : List Nat) (jm : Nat → Option Nat) (top : Nat) (rest2 : List Nat),
      create_jump_map_loop prog 0 (fun _ => none) [] = .ok (jm, top :: rest2) →
      create_jump_map prog = .error (.UnmachedLoopParentheses top)) := by
  refine ⟨rfl, rfl, ?_, ?_⟩
  · intro rest i jm
    rfl
  · intro prog jm top rest2 h
    unfold create_jump_map
    rw [h]

/-- Witness for the amended C5: the empty-stack close at index 0 and the
leftover open bracket of `"["`. -/
theorem C5_witness :
    create_jump_map_loop [BF_LOOP_CLOSE] 0 (fun _ => none) [] =
      .error (.UnmachedLoopParentheses 0) ∧
    create_jump_map [BF_LOOP_OPEN] = .error (.UnmachedLoopParentheses 0) :=
  ⟨C5_unmatched_bracket_amended.2.2.1 [] 0 (fun _ => none),
   C5_unmatched_bracket_amended.2.2.2 [BF_LOOP_OPEN] (fun _ => none) 0 [] rfl⟩

/-- Helper: as long as the workspace index stays below the workspace count,
each `next_workspace` call just increments the workspace index. -/
lemma next_ws_iter : ∀ (m : Nat) (t : DataTape),
    t.workspace_pointer + m ≤ t.num_workspaces →
    iterOpt DataTape.next_workspace m t =
      some { t with workspace_pointer := t.workspace_pointer + m } := by
  intro m
  induction m with
  | zero => intro t _; rfl
  | succ m ih =>
    intro t h
    simp only [iterOpt]
    rw [ih t (by omega)]
    simp only [DataTape.next_workspace]
    rw [if_neg (show ¬ (t.workspace_pointer + m = t.num_workspaces) from by omega)]
    rfl

/-- Helper: as long as the workspace index stays positive, each
`prev_workspace` call just decrements the workspace index. -/
lemma prev_ws_iter : ∀ (m : Nat) (t : DataTape),
    m ≤ t.workspace_pointer →
    iterOpt DataTape.prev_workspace m t =
      some { t with workspace_pointer := t.workspace_pointer - m } := by
  intro m
  induction m with
  | zero => intro t _; rfl
  | succ m ih =>
    intro t h
    simp only [iterOpt]
    rw [ih t (by omega)]
    simp only [DataTape.prev_workspace]
    rw [if_neg (show ¬ (t.workspace_pointer - m = 0) from by omega)]
    rw [show t.workspace_pointer - m - 1 = t.workspace_pointer - (m + 1) from by omega]

/-- Helper: peeling the first application off an iterated partial operation. -/
lemma iterOpt_succ_front {α : Type} (f : α → Option α) (n : Nat) (a : α) :
    iterOpt f (n + 1) a = (f a).bind (iterOpt f n) := by
  induction n generalizing a with
  | zero =>
    show f a = _
    cases f a <;> rfl
  | succ n ih =>
    rw [show iterOpt f (n + 1 + 1) a = iterOpt f (n + 1 + 1) a from rfl]
    conv_lhs => rw [iterOpt]
    rw [ih]
    cases f a <;> rfl

/-- Claim C6: from workspace index 0 (and page arithmetic not overflowing),
N+1 `next_workspace` calls (N = workspace count) return the workspace index to
0 with the page register incremented by exactly 1, and N+1 `prev_workspace`
calls return the workspace index to 0 with the page register decremented by
exactly 1. -/
theorem C6_workspace_ring :
    (∀ t : DataTape, t.workspace_pointer = 0 → t.page < 65535 →
      iterOpt DataTape.next_workspace (t.num_workspaces + 1) t =
        some { t with page := t.page + 1 }) ∧
    (∀ t : DataTape, t.workspace_pointer = 0 → 0 < t.page →
      iterOpt DataTape.prev_workspace (t.num_workspaces + 1) t =
        some { t with page := t.page - 1 }) := by
  constructor
  · intro t h0 hp
    simp only [iterOpt]
    rw [next_ws_iter t.num_workspaces t (by omega)]
    simp only [DataTape.next_workspace]
    rw [if_pos (show t.workspace_pointer + t.num_workspaces = t.num_workspaces from by omega)]
    rw [if_pos hp]
    rw [show t.workspace_pointer = 0 from h0]
  · intro t h0 hp
    rw [iterOpt_succ_front]
    simp only [DataTape.prev_workspace]
    rw [if_pos h0, if_pos hp]
    show iterOpt DataTape.prev_workspace t.num_workspaces
      { t with page := t.page - 1, workspace_pointer := t.num_workspaces } = _
    rw [prev_ws_iter t.num_workspaces
      { t with page := t.page - 1, workspace_pointer := t.num_workspaces } (Nat.le_refl _)]
    show (some ({ t with
                  page := t.page - 1,
                  workspace_pointer := t.num_workspaces - t.num_workspaces } : DataTape)) = _
    rw [Nat.sub_self]
    rw [← h0]

/-- Witness for C6 on a two-workspace tape: three calls move the page register
by one. -/
theorem C6_witness :
    iterOpt DataTape.next_workspace 3 tapeE = some { tapeE with page := 1 } ∧
    iterOpt DataTape.prev_workspace 3 tapeF = some { tapeF with page := 4 } :=
  ⟨C6_workspace_ring.1 tapeE rfl (by decide),
   C6_workspace_ring.2 tapeF rfl (by decide)⟩

/-- Claim C8: at workspace index 0 with the page register in bounds, reading a
page never before touched returns 0 and materializes that page zero-filled,
with no prior initialization by the caller; and a read after a write at the
same page and pointer returns the value last written. -/
theorem C8_lazy_pages_and_read_after_write :
    (∀ t : DataTape, t.workspace_pointer = 0 → t.page < t.max_pages →
      t.tapes t.page = none →
      t.get_value = .ok (0, { t with tapes := hmInsert t.tapes t.page (fun _ => 0) })) ∧
    (∀ (t : DataTape) (v : Nat), t.workspace_pointer = 0 → t.page < t.max_pages →
      ∃ t2, t.set_value v = .ok t2 ∧ t2.get_value = .ok (v, t2)) := by
  constructor
  · intro t h0 hp hn
    have hple := Nat.not_le.mpr hp
    have hwp : ¬ 0 < t.workspace_pointer := by omega
    unfold DataTape.get_value
    rw [if_neg hple, if_neg hwp, hn]
  · intro t v h0 hp
    have hple := Nat.not_le.mpr hp
    have hwp : ¬ 0 < t.workspace_pointer := by omega
    unfold DataTape.set_value
    rw [if_neg hple, if_neg hwp]
    cases hn : t.tapes t.page with
    | some d =>
      refine ⟨_, rfl, ?_⟩
      simp [DataTape.get_value, hmInsert, arrSet, hple, hwp]
    | none =>
      refine ⟨_, rfl, ?_⟩
      simp [DataTape.get_value, hmInsert, arrSet, hple, hwp]

/-- Witness for C8 on a fresh one-page tape. -/
theorem C8_witness :
    DataTape.get_value tapeA =
      .ok (0, { tapeA with tapes := hmInsert tapeA.tapes tapeA.page (fun _ => 0) }) ∧
    ∃ t2, DataTape.set_value tapeA 7 = .ok t2 ∧ DataTape.get_value t2 = .ok (7, t2) :=
  ⟨C8_lazy_pages_and_read_after_write.1 tapeA rfl (by decide) rfl,
   C8_lazy_pages_and_read_after_write.2 tapeA 7 rfl (by decide)⟩

/-- Peeling one continuing step off the fuel-counted run. -/
lemma runCount_cont {π : Type} (M : PeriphModel π) (f s : Nat) (vm vm2 : BFVM π)
    (h : BFVM.next M vm = .cont vm2) :
    BFVM.runCount M (f + 1) s vm = BFVM.runCount M f (s + 1) vm2 := by
  simp only [BFVM.runCount]
  rw [h]

/-- A halting step ends the fuel-counted run with the current step count. -/
lemma runCount_halt {π : Type} (M : PeriphModel π) (f s : Nat) (vm vm2 : BFVM π)
    (h : BFVM.next M vm = .halt vm2) :
    BFVM.runCount M (f + 1) s vm = some (.done vm2, s) := by
  simp only [BFVM.runCount]
  rw [h]

/-- The zero page function. -/
def zf : Nat → Nat := fun _ => 0

/-- Page-0 contents of the `"+++[-]"` run, after each write (values
3, 2, 1 are reached twice; the last write clears the cell). -/
def c4d1 : Nat → Nat := arrSet zf 0 1
def c4d2 : Nat → Nat := arrSet c4d1 0 2
def c4d3 : Nat → Nat := arrSet c4d2 0 3
def c4d4 : Nat → Nat := arrSet c4d3 0 2
def c4d5 : Nat → Nat := arrSet c4d4 0 1
def c4d6 : Nat → Nat := arrSet c4d5 0 0

/-- Page maps of the `"+++[-]"` run: the empty map, then the lazily
materialized zero page, then one entry per write. -/
def c4tp0 : Nat → Option (Nat → Nat) := fun _ => none
def c4tp1 : Nat → Option (Nat → Nat) := hmInsert c4tp0 0 zf
def c4tp2 : Nat → Option (Nat → Nat) := hmInsert c4tp1 0 c4d1
def c4tp3 : Nat → Option (Nat → Nat) := hmInsert c4tp2 0 c4d2
def c4tp4 : Nat → Option (Nat → Nat) := hmInsert c4tp3 0 c4d3
def c4tp5 : Nat → Option (Nat → Nat) := hmInsert c4tp4 0 c4d4
def c4tp6 : Nat → Option (Nat → Nat) := hmInsert c4tp5 0 c4d5
def c4tp7 : Nat → Option (Nat → Nat) := hmInsert c4tp6 0 c4d6

/-- The loop jump map of `"+++[-]"`: close (5) jumps to 4, open (3) to 6. -/
def c4jm : Nat → Option Nat := hmInsert (hmInsert (fun _ => none) 5 4) 3 6

/-- The VM states of the `"+++[-]"` run, indexed by page limit, instruction
pointer and page map. -/
def c4vm (mp ip : Nat) (tp : Nat → Option (Nat → Nat)) : BFVM Unit :=
  { prog := [2, 2, 2, 4, 3, 5]
    jump_map := fun kk =>
      match c4jm kk with
      | some v => some v
      | none => none
    data_tape := { tapes := tp, pointer := 0, page := 0, max_pages := mp
                   num_workspaces := 0, workspaces := fun _ _ => 0, workspace_pointer := 0 }
    periph := (), pointer := ip, buffer := 0 }

set_option maxRecDepth 4000 in
lemma c4s1 (k : Nat) : BFVM.next MUnit (c4vm (k + 1) 0 c4tp0) = .cont (c4vm (k + 1) 1 c4tp2) := rfl

set_option maxRecDepth 4000 in
lemma c4s2 (k : Nat) : BFVM.next MUnit (c4vm (k + 1) 1 c4tp2) = .cont (c4vm (k + 1) 2 c4tp3) := rfl

set_option maxRecDepth 4000 in
lemma c4s3 (k : Nat) : BFVM.next MUnit (c4vm (k + 1) 2 c4tp3) = .cont (c4vm (k + 1) 3 c4tp4) := rfl

set_option maxRecDepth 4000 in
lemma c4s4 (k : Nat) : BFVM.next MUnit (c4vm (k + 1) 3 c4tp4) = .cont (c4vm (k + 1) 4 c4tp4) := rfl

set_option maxRecDepth 4000 in
lemma c4s5 (k : Nat) : BFVM.next MUnit (c4vm (k + 1) 4 c4tp4) = .cont (c4vm (k + 1) 5 c4tp5) := rfl

set_option maxRecDepth 4000 in
lemma c4s6 (k : Nat) : BFVM.next MUnit (c4vm (k + 1) 5 c4tp5) = .cont (c4vm (k + 1) 4 c4tp5) := rfl

set_option maxRecDepth 4000 in
lemma c4s7 (k : Nat) : BFVM.next MUnit (c4vm (k + 1) 4 c4tp5) = .cont (c4vm (k + 1) 5 c4tp6) := rfl

set_option maxRecDepth 4000 in
lemma c4s8 (k : Nat) : BFVM.next MUnit (c4vm (k + 1) 5 c4tp6) = .cont (c4vm (k + 1) 4 c4tp6) := rfl

set_option maxRecDepth 4000 in
lemma c4s9 (k : Nat) : BFVM.next MUnit (c4vm (k + 1) 4 c4tp6) = .cont (c4vm (k + 1) 5 c4tp7) := rfl

set_option maxRecDepth 4000 in
lemma c4s10 (k : Nat) : BFVM.next MUnit (c4vm (k + 1) 5 c4tp7) = .cont (c4vm (k + 1) 6 c4tp7) := rfl

set_option maxRecDepth 4000 in
lemma c4s11 (k : Nat) : BFVM.next MUnit (c4vm (k + 1) 6 c4tp7) = .halt (c4vm (k + 1) 6 c4tp7) := rfl

set_option maxRecDepth 4000 in
/-- Claim C4: the program `"+++[-]"`, constructed with any page limit of at
least 1, runs to completion without error, halts after exactly 10 executed
steps, and leaves the cell at the loop's address (pointer 0) equal to 0. -/
theorem C4_plus_loop_terminates (m : Nat) (hm : 0 < m) :
    ∃ vm : BFVM Unit,
      BFVM.new_with_workspaces ['+', '+', '+', '[', '-', ']'] () m true 0 = .ok vm ∧
      ∃ vmE : BFVM Unit,
        BFVM.runCount MUnit 11 0 vm = some (.done vmE, 10) ∧
        DataTape.get_value vmE.data_tape = .ok (0, vmE.data_tape) := by
  obtain ⟨k, rfl⟩ := Nat.exists_eq_succ_of_ne_zero (Nat.pos_iff_ne_zero.mp hm)
  refine ⟨c4vm (k + 1) 0 c4tp0, rfl, c4vm (k + 1) 6 c4tp7, ?_, rfl⟩
  rw [runCount_cont MUnit 10 0 _ _ (c4s1 k)]
  rw [runCount_cont MUnit 9 1 _ _ (c4s2 k)]
  rw [runCount_cont MUnit 8 2 _ _ (c4s3 k)]
  rw [runCount_cont MUnit 7 3 _ _ (c4s4 k)]
  rw [runCount_cont MUnit 6 4 _ _ (c4s5 k)]
  rw [runCount_cont MUnit 5 5 _ _ (c4s6 k)]
  rw [runCount_cont MUnit 4 6 _ _ (c4s7 k)]
  rw [runCount_cont MUnit 3 7 _ _ (c4s8 k)]
  rw [runCount_cont MUnit 2 8 _ _ (c4s9 k)]
  rw [runCount_cont MUnit 1 9 _ _ (c4s10 k)]
  rw [runCount_halt MUnit 0 10 _ _ (c4s11 k)]

/-- Witness for C4 at page limit 1. -/
theorem C4_witness :
    ∃ vm : BFVM Unit,
      BFVM.new_with_workspaces ['+', '+', '+', '[', '-', ']'] () 1 true 0 = .ok vm ∧
      ∃ vmE : BFVM Unit,
        BFVM.runCount MUnit 11 0 vm = some (.done vmE, 10) ∧
        DataTape.get_value vmE.data_tape = .ok (0, vmE.data_tape) :=
  C4_plus_loop_terminates 1 (by decide)

set_option maxRecDepth 4000 in
/-- Claim C1 is false on the code: `run_for`'s loop increments its counter
(`left += 1`) instead of decrementing it, so `run_for(1)` on the two-step
program `"++"` does not stop after one step — it runs the program to
completion (instruction pointer 2, cell value 2) instead of performing at
most one `next` call (which would leave the cell at 1). -/
theorem C1_run_for_runs_to_completion :
    ∃ vm : BFVM Unit,
      BFVM.new ['+', '+'] () 1 true = .ok vm ∧
      ∃ vmE : BFVM Unit,
        BFVM.run_for MUnit 1 0 vm = some (.done vmE) ∧
        vmE.pointer = 2 ∧
        DataTape.get_value vmE.data_tape = .ok (2, vmE.data_tape) :=
  ⟨_, rfl, _, rfl, rfl, rfl⟩

set_option maxRecDepth 4000 in
/-- Claim C2 is false on the code: in raw mode, for 5 unrecognized characters
followed by `+`, position 0 becomes a filler-jump and positions 1 through 4
stay plain filler, but the jump-map target of position 0 is 6 (the program
length, because the trailing-run patch overwrites the run's entry), not 5:
stepping from position 0 lands on position 6 — past the end — so the `+` at
position 5 is skipped. -/
theorem C2_filler_jump_overshoots :
    ∃ vm : BFVM Unit,
      BFVM.new_with_workspaces ['?', '?', '?', '?', '?', '+'] () 1 false 0 = .ok vm ∧
      vm.prog = [FIL_JUMP, FIL_CHAR, FIL_CHAR, FIL_CHAR, FIL_CHAR, BF_DATA_INC] ∧
      vm.jump_map 0 = some 6 ∧
      vm.prog.get? 1 = some FIL_CHAR ∧
      vm.prog.get? 2 = some FIL_CHAR ∧
      vm.prog.get? 3 = some FIL_CHAR ∧
      vm.prog.get? 4 = some FIL_CHAR ∧
      BFVM.next MUnit vm = .cont { vm with pointer := 6 } :=
  ⟨_, rfl, rfl, rfl, rfl, rfl, rfl, rfl, rfl⟩
